import Mathlib

/-!
Verification of the event-tracing subsystem of pytorch-pfn-extras
(`pytorch_pfn_extras/profiler/_tracing.py`), shallowly embedded in Lean 4.

Modelling choices:
* Timestamps (`time.perf_counter_ns`) are integers of nanoseconds, passed
  explicitly to the operations that read the clock.  Microsecond values
  (`ns / 1000` in the source, a float division) are rationals.
* The `float("inf")` sentinel stored in `_max_event_count` is modelled by
  `Option Nat`, with `none` standing for the unbounded sentinel.
* Exceptions are modelled with `Except`: a traced code block evaluates to an
  `Except e a`, and the context manager's `finally` bookkeeping runs
  regardless of that result before the result is propagated.
* `json.dumps` / `json.loads` of the event list (Python standard library) are
  modelled at the level of the JSON value produced or parsed: the checkpoint
  carries the JSON tree of the event array rather than its textual rendering,
  the textual print/parse round trip being a property of the Python `json`
  library, not of this repository.
* The `Writer` collaborator is external; `flush` is modelled as returning the
  list of calls it makes to the writer.
* The process-global registry variable `_tracer` is modelled by explicit state
  passing of an `Option TracerInstance`.
-/

/-- One recorded span, as built by `ChromeTracer.add_event`
(`dict(name=..., cat="", ph="X", ts=..., dur=..., pid=..., tid=...)`). -/
structure Event where
  name : String
  cat : String
  ph : String
  ts : Rat
  dur : Rat
  pid : Int
  tid : Int
deriving DecidableEq, Repr

/-- JSON values, the codomain of Python's `json.loads` (objects keep insertion
order, as `dict` does). -/
inductive Json where
  | null : Json
  | bool : Bool → Json
  | int : Int → Json
  | float : Rat → Json
  | str : String → Json
  | arr : List Json → Json
  | obj : List (String × Json) → Json

/-- The JSON object `json.dumps` produces for one event dict (keys in
insertion order: name, cat, ph, ts, dur, pid, tid). -/
def eventToJson (e : Event) : Json :=
  Json.obj
    [("name", Json.str e.name), ("cat", Json.str e.cat), ("ph", Json.str e.ph),
     ("ts", Json.float e.ts), ("dur", Json.float e.dur),
     ("pid", Json.int e.pid), ("tid", Json.int e.tid)]

/-- Reading one event dict back from its JSON object. -/
def eventOfJson : Json → Option Event
  | Json.obj
      [("name", Json.str n), ("cat", Json.str c), ("ph", Json.str ph),
       ("ts", Json.float ts), ("dur", Json.float d),
       ("pid", Json.int pid), ("tid", Json.int tid)] =>
    some ⟨n, c, ph, ts, d, pid, tid⟩
  | _ => none

/-- `json.dumps(self._event_list)`: the JSON array of the event objects. -/
def eventsToJson (l : List Event) : Json :=
  Json.arr (l.map eventToJson)

/-- Reading a list of event dicts back from a list of JSON values. -/
def eventListOfJson : List Json → Option (List Event)
  | [] => some []
  | j :: js =>
    match eventOfJson j, eventListOfJson js with
    | some e, some es => some (e :: es)
    | _, _ => none

/-- `json.loads` of a serialized event list: anything but an array of event
objects fails. -/
def eventsOfJson : Json → Option (List Event)
  | Json.arr js => eventListOfJson js
  | _ => none

/-- The state of a `ChromeTracer` instance: `_enable`, `_event_list`,
`_max_event_count` (with `none` for the `float("inf")` sentinel),
`_event_count`, `_is_cuda_available`, `_pid`. -/
structure ChromeTracer where
  enable_flag : Bool
  event_list : List Event
  max_event_count : Option Nat
  event_count : Nat
  is_cuda_available : Bool
  pid : Int
deriving DecidableEq, Repr

/-- `ChromeTracer.__init__(max_event_count, enable)`.  The source stores
`max_event_count or float("inf")`: Python's `or` replaces both `None` and the
falsy `0` with the unbounded sentinel. -/
def ChromeTracer.init (max_event_count : Option Nat) (enable_arg : Bool)
    (is_cuda : Bool) (pid : Int) : ChromeTracer :=
  { enable_flag := enable_arg
    event_list := []
    max_event_count :=
      match max_event_count with
      | none => none
      | some k => if k = 0 then none else some k
    event_count := 0
    is_cuda_available := is_cuda
    pid := pid }

/-- The guard `self._event_count < self._max_event_count`; against the
`float("inf")` sentinel the comparison is always true. -/
def ltMaxEventCount (count : Nat) (cap : Option Nat) : Bool :=
  match cap with
  | none => true
  | some k => decide (count < k)

/-- The record appended by `add_event`: `ts` and `dur` convert nanoseconds to
microseconds by dividing by 1000. -/
def mkEvent (pid : Int) (name : String) (begin_ns end_ns : Int) (tid : Int) :
    Event :=
  { name := name
    cat := ""
    ph := "X"
    ts := (begin_ns : Rat) / 1000
    dur := ((end_ns - begin_ns : Int) : Rat) / 1000
    pid := pid
    tid := tid }

/-- The `finally` block of `ChromeTracer.add_event`: if enabled and under the
cap, increment the counter and append the completed record; otherwise leave
the state untouched. -/
def ChromeTracer.add_event_finalize (t : ChromeTracer) (name : String)
    (begin_ns end_ns : Int) (tid : Int) : ChromeTracer :=
  if t.enable_flag && ltMaxEventCount t.event_count t.max_event_count then
    { t with
        event_count := t.event_count + 1
        event_list := t.event_list ++ [mkEvent t.pid name begin_ns end_ns tid] }
  else t

/-- The whole `add_event` context manager around a traced body: the start time
is captured on entry, the body runs to its `Except` result, the `finally`
bookkeeping runs (reading the clock again as `end_ns`), and the body's result
— normal value or exception — is propagated unchanged. -/
def ChromeTracer.add_event {e a : Type} (t : ChromeTracer) (name : String)
    (begin_ns : Int) (body : Except e a) (end_ns : Int) (tid : Int) :
    ChromeTracer × Except e a :=
  (t.add_event_finalize name begin_ns end_ns tid, body)

/-- `ChromeTracer.enable(enable_flag)`. -/
def ChromeTracer.enable (t : ChromeTracer) (enable_flag : Bool) : ChromeTracer :=
  { t with enable_flag := enable_flag }

/-- `ChromeTracer.clear()`. -/
def ChromeTracer.clear (t : ChromeTracer) : ChromeTracer :=
  { t with event_list := [], event_count := 0 }

/-- One call to the writer: `writer(filename, "", self._event_list, savefun)`. -/
structure WriterCall where
  filename : String
  out_dir : String
  target : List Event
deriving DecidableEq, Repr

/-- `ChromeTracingSaveFunc`: serializes the handed event list to the
trace-viewer JSON array. -/
def ChromeTracingSaveFunc (target : List Event) : Json :=
  eventsToJson target

/-- `ChromeTracer.flush(filename, writer)`: early return when disabled,
otherwise exactly one writer call carrying the filename, the ignored out_dir
`""` and the whole in-memory event list. -/
def ChromeTracer.flush (t : ChromeTracer) (filename : String) :
    List WriterCall :=
  if t.enable_flag = false then []
  else [⟨filename, "", t.event_list⟩]

/-- The checkpoint mapping produced by `state_dict`: keys `_enable`,
`_event_list` (JSON-encoded event array), `_max_event_count`, `_event_count`. -/
structure TracerStateDict where
  enable_flag : Bool
  event_list : Json
  max_event_count : Option Nat
  event_count : Nat

/-- `ChromeTracer.state_dict()`. -/
def ChromeTracer.state_dict (t : ChromeTracer) : TracerStateDict :=
  { enable_flag := t.enable_flag
    event_list := eventsToJson t.event_list
    max_event_count := t.max_event_count
    event_count := t.event_count }

/-- `ChromeTracer.load_state_dict(to_load)`: replaces the four checkpointed
fields, re-parsing the event list from its JSON encoding; `_pid` and
`_is_cuda_available` are untouched.  Reading fails (`none`) only when the blob is
not an event array — a blob `state_dict` itself never produces. -/
def ChromeTracer.load_state_dict (t : ChromeTracer) (to_load : TracerStateDict) :
    Option ChromeTracer :=
  match eventsOfJson to_load.event_list with
  | some l =>
    some { t with
            enable_flag := to_load.enable_flag
            event_list := l
            max_event_count := to_load.max_event_count
            event_count := to_load.event_count }
  | none => none

/-- The parameters of one completed span: label, the two clock readings and
the native thread id observed at completion. -/
structure SpanParams where
  name : String
  begin_ns : Int
  end_ns : Int
  tid : Int
deriving DecidableEq, Repr

/-- A sequence of completed `add_event` spans, each with a normally returning
traced body. -/
def runSpans (t : ChromeTracer) (spans : List SpanParams) : ChromeTracer :=
  spans.foldl
    (fun acc s =>
      (acc.add_event s.name s.begin_ns (Except.ok () : Except Unit Unit)
        s.end_ns s.tid).1)
    t

/-- `DummyTracer` carries no state of its own. -/
structure DummyTracer where
deriving DecidableEq, Repr

/-- `DummyTracer.add_event`: the context manager only yields, so the body's
result passes through and nothing else happens, on entry or exit. -/
def DummyTracer.add_event {e a : Type} (t : DummyTracer) (_name : String)
    (body : Except e a) : DummyTracer × Except e a :=
  (t, body)

/-- `DummyTracer.clear()`: `pass`. -/
def DummyTracer.clear (t : DummyTracer) : DummyTracer := t

/-- `DummyTracer.flush(filename, writer)`: `pass`, no writer call. -/
def DummyTracer.flush (t : DummyTracer) (_filename : String) :
    DummyTracer × List WriterCall :=
  (t, [])

/-- `DummyTracer` does not override `enable`, so the call dispatches to
`Tracer.enable`, which raises `NotImplementedError("Tracers must implement
enable")`. -/
def DummyTracer.enable (t : DummyTracer) (_enable_flag : Bool) :
    DummyTracer × Except String Unit :=
  (t, Except.error "Tracers must implement enable")

/-- The concrete tracer classes that can be asked of the registry. -/
inductive TracerKind where
  | chrome : TracerKind
  | dummy : TracerKind
deriving DecidableEq, Repr

/-- The instance stored in the module-level `_tracer` variable. -/
inductive TracerInstance where
  | chrome : ChromeTracer → TracerInstance
  | dummy : DummyTracer → TracerInstance
deriving DecidableEq, Repr

/-- `__class__` of the stored instance. -/
def TracerInstance.kind : TracerInstance → TracerKind
  | TracerInstance.chrome _ => TracerKind.chrome
  | TracerInstance.dummy _ => TracerKind.dummy

/-- `tracer_cls()`: default construction of the requested class.
`ChromeTracer()` means `max_event_count=None, enable=True`. -/
def constructDefault (tracer_cls : TracerKind) (is_cuda : Bool) (pid : Int) :
    TracerInstance :=
  match tracer_cls with
  | TracerKind.chrome => TracerInstance.chrome (ChromeTracer.init none true is_cuda pid)
  | TracerKind.dummy => TracerInstance.dummy ⟨⟩

/-- `get_tracer(tracer_cls)`: lazily construct and store on first use, then
demand that the stored instance's class is exactly `tracer_cls`, raising
`TypeError("get_tracer called with a different cls")` otherwise.  The first
component is the value left in `_tracer` (set before the class check). -/
def get_tracer (st : Option TracerInstance) (tracer_cls : TracerKind)
    (is_cuda : Bool) (pid : Int) : TracerInstance × Except String TracerInstance :=
  let t := st.getD (constructDefault tracer_cls is_cuda pid)
  if t.kind = tracer_cls then (t, Except.ok t)
  else (t, Except.error "get_tracer called with a different cls")

/-- Dynamic dispatch of `.clear()` on the stored instance. -/
def TracerInstance.clearInstance : TracerInstance → TracerInstance
  | TracerInstance.chrome t => TracerInstance.chrome t.clear
  | TracerInstance.dummy t => TracerInstance.dummy t.clear

/-- `clear_tracer()`: `get_tracer().clear()` with the default class
`ChromeTracer`; afterwards `_tracer` holds the (in-place cleared) instance. -/
def clear_tracer (st : Option TracerInstance) (is_cuda : Bool) (pid : Int) :
    Option TracerInstance × Except String Unit :=
  match get_tracer st TracerKind.chrome is_cuda pid with
  | (t, Except.ok _) => (some t.clearInstance, Except.ok ())
  | (t, Except.error msg) => (some t, Except.error msg)

/-! Helper lemmas. -/

theorem runSpans_nil (t : ChromeTracer) : runSpans t [] = t := rfl

theorem runSpans_cons (t : ChromeTracer) (s : SpanParams) (spans : List SpanParams) :
    runSpans t (s :: spans) =
      runSpans (t.add_event_finalize s.name s.begin_ns s.end_ns s.tid) spans := rfl

theorem eventOfJson_eventToJson (e : Event) :
    eventOfJson (eventToJson e) = some e := by
  cases e
  rfl

theorem eventListOfJson_map (l : List Event) :
    eventListOfJson (l.map eventToJson) = some l := by
  induction l with
  | nil => rfl
  | cons e rest ih => simp [eventListOfJson, eventOfJson_eventToJson, ih]

theorem eventsOfJson_eventsToJson (l : List Event) :
    eventsOfJson (eventsToJson l) = some l := by
  simp [eventsOfJson, eventsToJson, eventListOfJson_map]

theorem add_event_finalize_skip (t : ChromeTracer) (name : String)
    (b e tid : Int) (h : t.enable_flag = false ∨
      ltMaxEventCount t.event_count t.max_event_count = false) :
    t.add_event_finalize name b e tid = t := by
  rcases h with h | h <;> simp [ChromeTracer.add_event_finalize, h]

theorem add_event_finalize_append (t : ChromeTracer) (name : String)
    (b e tid : Int) (hen : t.enable_flag = true)
    (hcap : ltMaxEventCount t.event_count t.max_event_count = true) :
    t.add_event_finalize name b e tid =
      { t with
          event_count := t.event_count + 1
          event_list := t.event_list ++ [mkEvent t.pid name b e tid] } := by
  simp [ChromeTracer.add_event_finalize, hen, hcap]

theorem runSpans_capped (K : Nat) (spans : List SpanParams) :
    ∀ t : ChromeTracer, t.enable_flag = true → t.max_event_count = some K →
      t.event_count ≤ K → t.event_list.length = t.event_count →
      (runSpans t spans).event_count = min (t.event_count + spans.length) K ∧
      (runSpans t spans).event_list.length = min (t.event_count + spans.length) K := by
  induction spans with
  | nil =>
    intro t h1 h2 h3 h4
    constructor <;> simp [runSpans_nil] <;> omega
  | cons s rest ih =>
    intro t h1 h2 h3 h4
    rw [runSpans_cons]
    by_cases hc : t.event_count < K
    · have hcap : ltMaxEventCount t.event_count t.max_event_count = true := by
        simp [ltMaxEventCount, h2, hc]
      rw [add_event_finalize_append t s.name s.begin_ns s.end_ns s.tid h1 hcap]
      obtain ⟨hA, hB⟩ := ih
        { t with
            event_count := t.event_count + 1
            event_list := t.event_list ++ [mkEvent t.pid s.name s.begin_ns s.end_ns s.tid] }
        h1 h2 (show t.event_count + 1 ≤ K by omega)
        (show (t.event_list ++ [mkEvent t.pid s.name s.begin_ns s.end_ns s.tid]).length =
          t.event_count + 1 by simp [h4])
      dsimp only at hA hB
      simp only [List.length_cons] at *
      constructor <;> omega
    · have hcap : ltMaxEventCount t.event_count t.max_event_count = false := by
        simp [ltMaxEventCount, h2, hc]
      rw [add_event_finalize_skip t s.name s.begin_ns s.end_ns s.tid (Or.inr hcap)]
      obtain ⟨hA, hB⟩ := ih t h1 h2 h3 h4
      simp only [List.length_cons] at *
      constructor <;> omega

theorem runSpans_unbounded (spans : List SpanParams) :
    ∀ t : ChromeTracer, t.enable_flag = true → t.max_event_count = none →
      (runSpans t spans).event_list.length = t.event_list.length + spans.length ∧
      ∀ ev ∈ (runSpans t spans).event_list,
        ev ∈ t.event_list ∨
          ∃ s ∈ spans, ev = mkEvent t.pid s.name s.begin_ns s.end_ns s.tid := by
  induction spans with
  | nil =>
    intro t h1 h2
    exact ⟨by simp [runSpans_nil], fun ev hev => Or.inl hev⟩
  | cons s rest ih =>
    intro t h1 h2
    rw [runSpans_cons]
    have hcap : ltMaxEventCount t.event_count t.max_event_count = true := by
      simp [ltMaxEventCount, h2]
    rw [add_event_finalize_append t s.name s.begin_ns s.end_ns s.tid h1 hcap]
    obtain ⟨hA, hB⟩ := ih
      { t with
          event_count := t.event_count + 1
          event_list := t.event_list ++ [mkEvent t.pid s.name s.begin_ns s.end_ns s.tid] }
      h1 h2
    constructor
    · rw [hA]; simp; omega
    · intro ev hev
      rcases hB ev hev with hmem | ⟨s2, hs2, he⟩
      · rcases List.mem_append.mp hmem with h | h
        · exact Or.inl h
        · exact Or.inr ⟨s, List.mem_cons_self s rest, by simpa using h⟩
      · exact Or.inr ⟨s2, List.mem_cons_of_mem s hs2, he⟩

/-! Claim theorems. -/

/-- C1: on an enabled ChromeTracer whose max_event_count is K, with a fresh
buffer and counter, a sequence of N > K completed add_event spans leaves
exactly K records in the buffer; no prefix of the sequence ever pushes the
buffer past K; and once the counter has reached K the finalize step of a
later span changes nothing. -/
theorem chromeTracer_cap_bound (K N : Nat) (c : Bool) (p : Int)
    (spans : List SpanParams) (hlen : spans.length = N) (hKN : K < N) :
    (runSpans ⟨true, [], some K, 0, c, p⟩ spans).event_list.length = K ∧
    (∀ j : Nat,
      (runSpans ⟨true, [], some K, 0, c, p⟩ (spans.take j)).event_list.length
        ≤ K) ∧
    (∀ (t : ChromeTracer) (name : String) (b e tid : Int),
      t.max_event_count = some K → K ≤ t.event_count →
      t.add_event_finalize name b e tid = t) := by
  refine ⟨?_, ?_, ?_⟩
  · have h :=
      (runSpans_capped K spans ⟨true, [], some K, 0, c, p⟩ rfl rfl
        (Nat.zero_le K) rfl).2
    omega
  · intro j
    have h :=
      (runSpans_capped K (spans.take j) ⟨true, [], some K, 0, c, p⟩ rfl rfl
        (Nat.zero_le K) rfl).2
    omega
  · intro t name b e tid hmax hge
    apply add_event_finalize_skip
    right
    simp [ltMaxEventCount, hmax]
    omega

/-- C1 witness: the theorem at K = 1 and two concrete completed spans. -/
theorem chromeTracer_cap_bound_witness :
    (([⟨"a", 0, 3, 7⟩, ⟨"b", 1, 4, 7⟩] : List SpanParams).length = 2 ∧ 1 < 2) ∧
    (runSpans ⟨true, [], some 1, 0, false, 5⟩
      [⟨"a", 0, 3, 7⟩, ⟨"b", 1, 4, 7⟩]).event_list.length = 1 :=
  ⟨⟨rfl, by decide⟩,
   (chromeTracer_cap_bound 1 2 false 5 [⟨"a", 0, 3, 7⟩, ⟨"b", 1, 4, 7⟩] rfl
     (by decide)).1⟩

/-- C2 counterexample: constructing a ChromeTracer with max_event_count = 0
does not disable recording — one completed span on the freshly constructed
tracer appends a record, because `__init__` stores the unbounded sentinel in
place of the falsy 0. -/
theorem chromeTracer_zero_cap_records :
    ((ChromeTracer.init (some 0) true false 1).add_event "e" 0
        (Except.ok () : Except Unit Unit) 5 2).1.event_list.length = 1 ∧
    (ChromeTracer.init (some 0) true false 1).max_event_count = none :=
  ⟨rfl, rfl⟩

/-- C2 amended: constructing with max_event_count = 0 yields the unbounded
sentinel (`0 or float("inf")` evaluates to the infinity float), so recording
is not disabled: while enabled, every completed span appends a record and N
spans give N records. -/
theorem chromeTracer_zero_cap_unbounded (c : Bool) (p : Int)
    (spans : List SpanParams) :
    (ChromeTracer.init (some 0) true c p).max_event_count = none ∧
    (runSpans (ChromeTracer.init (some 0) true c p) spans).event_list.length =
      spans.length := by
  refine ⟨rfl, ?_⟩
  have h :=
    (runSpans_unbounded spans (ChromeTracer.init (some 0) true c p) rfl rfl).1
  simpa [ChromeTracer.init] using h

/-- C3: load_state_dict of state_dict reproduces the tracer exactly — the
same enabled flag, event count, max event count, and the same event buffer
after the serialized event array is re-parsed. -/
theorem chromeTracer_state_roundtrip (t : ChromeTracer) :
    t.load_state_dict t.state_dict = some t := by
  simp [ChromeTracer.load_state_dict, ChromeTracer.state_dict,
    eventsOfJson_eventsToJson]

/-- C4 (code bug): DummyTracer's add_event, clear and flush are pure no-ops
that leave the (empty) state unchanged and make no writer call, with
add_event doing nothing on entry or exit beyond propagating the body's
result; but `enable` is not overridden, so it dispatches to `Tracer.enable`
and raises NotImplementedError instead of being a no-op. -/
theorem dummyTracer_noop_except_enable {e a : Type} (t : DummyTracer)
    (name fn : String) (flag : Bool) (body : Except e a) :
    t.add_event name body = (t, body) ∧ t.clear = t ∧ t.flush fn = (t, []) ∧
    t.enable flag = (t, Except.error "Tracers must implement enable") :=
  ⟨rfl, rfl, rfl, rfl⟩

/-- C5: with the unbounded sentinel and the tracer enabled, N completed spans
whose clock readings are monotone produce exactly N records, every one with
nonnegative duration. -/
theorem chromeTracer_unbounded_records (c : Bool) (p : Int)
    (spans : List SpanParams)
    (hmono : ∀ s ∈ spans, s.begin_ns ≤ s.end_ns) :
    (runSpans ⟨true, [], none, 0, c, p⟩ spans).event_list.length =
      spans.length ∧
    ∀ ev ∈ (runSpans ⟨true, [], none, 0, c, p⟩ spans).event_list,
      0 ≤ ev.dur := by
  obtain ⟨hA, hB⟩ := runSpans_unbounded spans ⟨true, [], none, 0, c, p⟩ rfl rfl
  refine ⟨by simpa using hA, ?_⟩
  intro ev hev
  rcases hB ev hev with hmem | ⟨s, hs, he⟩
  · simp at hmem
  · subst he
    have hle := hmono s hs
    show (0 : Rat) ≤ ((s.end_ns - s.begin_ns : Int) : Rat) / 1000
    apply div_nonneg
    · exact_mod_cast Int.sub_nonneg.mpr hle
    · norm_num

/-- C5 witness: the theorem at one concrete monotone span. -/
theorem chromeTracer_unbounded_records_witness :
    (runSpans ⟨true, [], none, 0, false, 1⟩
      [⟨"a", 2, 9, 3⟩]).event_list.length = 1 :=
  (chromeTracer_unbounded_records false 1 [⟨"a", 2, 9, 3⟩] (by decide)).1

/-- C6: flush calls the writer exactly when the tracer is enabled — when
disabled it makes no call regardless of the buffer, and when enabled it makes
exactly one call carrying the target name and the full in-memory event list. -/
theorem chromeTracer_flush_when_enabled (t : ChromeTracer) (fn : String) :
    t.flush fn =
      if t.enable_flag then [⟨fn, "", t.event_list⟩]
      else ([] : List WriterCall) := by
  cases h : t.enable_flag <;> simp [ChromeTracer.flush, h]

/-- C7: when the traced body fails, the enabled under-cap span still
finalizes — the counter is incremented and a record with the duration up to
the failure point is appended — and the error is propagated unchanged. -/
theorem chromeTracer_error_propagates {e a : Type} (t : ChromeTracer)
    (name : String) (b en tid : Int) (err : e)
    (hen : t.enable_flag = true)
    (hcap : ltMaxEventCount t.event_count t.max_event_count = true) :
    t.add_event name b (Except.error err : Except e a) en tid =
      ({ t with
          event_count := t.event_count + 1
          event_list := t.event_list ++ [mkEvent t.pid name b en tid] },
        Except.error err) := by
  unfold ChromeTracer.add_event
  rw [add_event_finalize_append t name b en tid hen hcap]

/-- C7 witness: the theorem at a fresh unbounded tracer and a failing body. -/
theorem chromeTracer_error_propagates_witness :
    (ChromeTracer.init none true false 1).add_event "a" 0
        (Except.error "boom" : Except String Unit) 5 2 =
      ({ ChromeTracer.init none true false 1 with
          event_count := (ChromeTracer.init none true false 1).event_count + 1
          event_list := (ChromeTracer.init none true false 1).event_list ++
            [mkEvent (ChromeTracer.init none true false 1).pid "a" 0 5 2] },
        Except.error "boom") :=
  chromeTracer_error_propagates (ChromeTracer.init none true false 1) "a" 0 5 2
    "boom" rfl rfl

/-- C8: clear empties the buffer and zeroes the counter while preserving the
enabled flag and the max event count. -/
theorem chromeTracer_clear_resets (t : ChromeTracer) :
    t.clear.event_list = [] ∧ t.clear.event_count = 0 ∧
    t.clear.enable_flag = t.enable_flag ∧
    t.clear.max_event_count = t.max_event_count :=
  ⟨rfl, rfl, rfl, rfl⟩

theorem constructDefault_kind (k : TracerKind) (c : Bool) (p : Int) :
    (constructDefault k c p).kind = k := by
  cases k <;> rfl

/-- C9: on an uninitialized registry get_tracer constructs the requested
class with default configuration (for ChromeTracer: enabled, unbounded cap,
empty buffer, zero counter) and stores it; afterwards a request with a
different concrete class raises the type-mismatch error and a request with
the same class returns the stored instance unchanged, with no new
construction. -/
theorem get_tracer_singleton (c : Bool) (p : Int) (t : TracerInstance)
    (k k2 : TracerKind) :
    get_tracer none k c p =
      (constructDefault k c p, Except.ok (constructDefault k c p)) ∧
    constructDefault TracerKind.chrome c p =
      TracerInstance.chrome ⟨true, [], none, 0, c, p⟩ ∧
    (t.kind ≠ k2 →
      get_tracer (some t) k2 c p =
        (t, Except.error "get_tracer called with a different cls")) ∧
    get_tracer (some t) t.kind c p = (t, Except.ok t) := by
  refine ⟨?_, rfl, ?_, ?_⟩
  · simp [get_tracer, constructDefault_kind]
  · intro hne
    simp [get_tracer, hne]
  · simp [get_tracer]

/-- C9 witness: the mismatch branch of the theorem at a stored DummyTracer
asked for as ChromeTracer. -/
theorem get_tracer_singleton_witness :
    get_tracer (some (TracerInstance.dummy ⟨⟩)) TracerKind.chrome false 1 =
      (TracerInstance.dummy ⟨⟩,
        Except.error "get_tracer called with a different cls") :=
  (get_tracer_singleton false 1 (TracerInstance.dummy ⟨⟩) TracerKind.chrome
    TracerKind.chrome).2.2.1 (by decide)

/-- C10: clear_tracer on the uninitialized registry succeeds: it lazily
constructs the default ChromeTracer (enabled, unbounded cap, empty buffer),
stores it, clears it, and leaves the registry initialized with it. -/
theorem clear_tracer_uninitialized (c : Bool) (p : Int) :
    clear_tracer none c p =
      (some (TracerInstance.chrome ⟨true, [], none, 0, c, p⟩),
        Except.ok ()) := rfl
